import Mathlib

/-!
# Medica — verification of the session/authorization lifecycle and quiz logic

Shallow embedding of the logical core of the Medica front end
(`src/index.tsx`): the authorization session manager (`checkAuth`,
`handleUnlock`, `handleLogout`), the quiz generation client
(`generateQuizFromText`) and the quiz session state machine
(`QuizSection`: answer selection, completion gating, scoring).

JavaScript values stored in `localStorage` and produced by `JSON.parse`
are modelled by the inductive type `JVal`; JavaScript truthiness, strict
equality against a string literal, and numeric coercion of the `-` and
`<` operators are modelled explicitly.
-/

namespace Medica

/-- A JavaScript value as produced by `JSON.parse` (plus `undefined`,
modelled as `Option.none` at use sites).  Objects are association lists of
fields. -/
inductive JVal where
  | jnull : JVal
  | jbool (b : Bool) : JVal
  | jnum (n : Int) : JVal
  | jstr (s : String) : JVal
  | jarr (elems : List JVal) : JVal
  | jobj (fields : List (String × JVal)) : JVal

/-- Property access `v.k`: defined only on objects; on every other value
(and for a missing field) the result is `undefined`, modelled as `none`. -/
def getField : JVal → String → Option JVal
  | .jobj fields, k => (fields.find? (fun p => p.1 == k)).map (·.2)
  | _, _ => none

/-- JavaScript truthiness of a value. -/
def truthy : JVal → Bool
  | .jnull => false
  | .jbool b => b
  | .jnum n => n != 0
  | .jstr s => s != ""
  | .jarr _ => true
  | .jobj _ => true

/-- Truthiness of a possibly-`undefined` value (`undefined` is falsy). -/
def optTruthy : Option JVal → Bool
  | none => false
  | some v => truthy v

/-- JavaScript strict equality `v === s` against a string literal: true
exactly when `v` is the same string (`undefined` and non-strings compare
unequal). -/
def strictEqStr : Option JVal → String → Bool
  | some (.jstr t), s => t == s
  | _, _ => false

/-- `Number(v)` coercion used by the `-` operator; `none` models `NaN`.
Array and object coercion (via `toString`) is approximated by `NaN`; no
theorem below depends on those branches. -/
def toNumber : Option JVal → Option Int
  | none => none
  | some .jnull => some 0
  | some (.jbool b) => some (if b then 1 else 0)
  | some (.jnum n) => some n
  | some (.jstr s) => if s.trim == "" then some 0 else s.trim.toInt?
  | some (.jarr _) => none
  | some (.jobj _) => none

/-- JavaScript `a - v` where `a` is a number: coerces `v` to a number;
`NaN` (`none`) is absorbing. -/
def jsSub (a : Int) (v : Option JVal) : Option Int :=
  (toNumber v).map (fun n => a - n)

/-- JavaScript `x < b` where `b` is a number: any comparison against
`NaN` is false. -/
def jsLt (x : Option Int) (b : Int) : Bool :=
  match x with
  | some n => n < b
  | none => false

/-- JavaScript `v + n` where `n` is a number: numeric addition when `v`
coerces to a number, string concatenation when `v` is a string.  The
array/object/`undefined` branches are approximations (no theorem below
depends on them). -/
def jsAddNum (v : Option JVal) (n : Int) : Option JVal :=
  match v with
  | some (.jnum m) => some (.jnum (m + n))
  | some (.jstr s) => some (.jstr (s ++ toString n))
  | some (.jbool b) => some (.jnum ((if b then 1 else 0) + n))
  | some .jnull => some (.jnum n)
  | some (.jarr _) => none
  | some (.jobj _) => none
  | none => none

/-- The string stored under the auth key, modelled by how
`JSON.parse` would treat it:
* `emptyStr` — the empty string `""`: falsy, and not valid JSON;
* `malformed` — a non-empty string on which `JSON.parse` throws
  (e.g. the legacy plain `granted` marker);
* `wellFormed v` — a non-empty string parsing to the value `v`. -/
inductive StoredVal where
  | emptyStr : StoredVal
  | malformed : StoredVal
  | wellFormed (v : JVal) : StoredVal

/-- JavaScript `String.prototype.trim()`: drops leading and trailing
whitespace.  Implemented over the character list so that it is fully
computable by the kernel. -/
def jsTrim (s : String) : String :=
  ⟨((s.data.dropWhile Char.isWhitespace).reverse.dropWhile Char.isWhitespace).reverse⟩

/-- JavaScript `String.prototype.toLowerCase()` (basic-latin case
folding, as in `Char.toLower`). -/
def jsToLower (s : String) : String :=
  ⟨s.data.map Char.toLower⟩

/-- `code.trim().toLowerCase()` (src/index.tsx line 1092). -/
def normalizeCode (code : String) : String :=
  jsToLower (jsTrim code)

-- Constants from src/index.tsx (lines 1019–1022).
def VALID_CODES : List String := ["sad", "happy", "man"]

def EXPIRY_DURATION_MINUTES : Int := 40320 -- 28 days

def EXPIRY_TIME_MS : Int := EXPIRY_DURATION_MINUTES * 60 * 1000

/-- Result of the `checkAuth` initialization effect: the component state
it sets (`isAuthorized`, `expiryTimestamp`) and the storage content under
the auth key afterwards. -/
structure CheckAuthResult where
  isAuthorized : Bool
  expiryTimestamp : Option JVal
  stored : Option StoredVal


/-- `checkAuth` (src/index.tsx lines 1046–1077): reads the stored record;
if it is truthy, parses it and checks
`authData && authData.status === 'granted' && authData.timestamp &&
(now - authData.timestamp < EXPIRY_TIME_MS)`; on success sets
`isAuthorized` and `expiryTimestamp = authData.timestamp + EXPIRY_TIME_MS`,
otherwise removes the record.  A parse failure is caught and also removes
the record.  When nothing is stored (or the stored string is falsy) the
initial state (`false`, `null`) is kept. -/
def checkAuth (stored : Option StoredVal) (now : Int) : CheckAuthResult :=
  match stored with
  | none => ⟨false, none, none⟩
  | some .emptyStr => ⟨false, none, some .emptyStr⟩
  | some .malformed => ⟨false, none, none⟩
  | some (.wellFormed v) =>
      if truthy v && strictEqStr (getField v "status") "granted"
          && optTruthy (getField v "timestamp")
          && jsLt (jsSub now (getField v "timestamp")) EXPIRY_TIME_MS then
        ⟨true, jsAddNum (getField v "timestamp") EXPIRY_TIME_MS, some (.wellFormed v)⟩
      else
        ⟨false, none, none⟩

/-- The record written on a successful unlock:
`{ status: 'granted', timestamp: t }`. -/
def authRecord (t : Int) : JVal :=
  .jobj [("status", .jstr "granted"), ("timestamp", .jnum t)]

/-- Result of `handleUnlock`: the returned boolean and the updated
storage/component state. -/
structure UnlockResult where
  returned : Bool
  stored : Option StoredVal
  isAuthorized : Bool
  expiryTimestamp : Option JVal


/-- `handleUnlock` (src/index.tsx lines 1091–1106): normalizes the code by
`trim().toLowerCase()`; if it is in `VALID_CODES`, writes
`{status: 'granted', timestamp: Date.now()}`, sets the authorized state
and expiry, and returns `true`; otherwise returns `false` and changes
nothing. -/
def handleUnlock (code : String) (now : Int) (stored : Option StoredVal)
    (isAuthorized : Bool) (expiryTimestamp : Option JVal) : UnlockResult :=
  if VALID_CODES.contains (normalizeCode code) then
    { returned := true
      stored := some (.wellFormed (authRecord now))
      isAuthorized := true
      expiryTimestamp := some (.jnum (now + EXPIRY_TIME_MS)) }
  else
    { returned := false
      stored := stored
      isAuthorized := isAuthorized
      expiryTimestamp := expiryTimestamp }

/-- Question difficulty (src/index.tsx `'High' | 'Medium'`). -/
inductive Difficulty where
  | High : Difficulty
  | Medium : Difficulty
deriving DecidableEq

/-- A quiz question (src/index.tsx `Question` interface, lines 33–40). -/
structure Question where
  id : Int
  question : String
  options : List String
  correctAnswer : String
  explanation : String
  difficulty : Difficulty
deriving DecidableEq

/-- src/index.tsx `QuizData` (lines 42–44). -/
structure QuizData where
  questions : List Question
deriving DecidableEq

/-- src/index.tsx `GenerateQuizResponse` (lines 46–50). -/
structure GenerateQuizResponse where
  success : Bool
  data : Option QuizData
  error : Option String
deriving DecidableEq

/-- Id post-processing in `generateQuizFromText` (src/index.tsx lines
186–189): `quizData.questions.map((q, index) => ({ ...q, id: index + 1 }))`. -/
def processedQuestions (qs : List Question) : List Question :=
  qs.mapIdx (fun index q => { q with id := (index : Int) + 1 })

/-- Environment of one `generateQuizFromText` call: the outcome of
`getApiKey()` (`none` when no key is configured), the outcome of the
external `generateContent` call (`Except.error msg` when it throws, and
otherwise `response.text`, with `none` for an absent text), and the
outcome of `JSON.parse` on a non-empty response text. -/
structure GenEnv where
  apiKey : Option String
  callResult : Except String (Option String)
  parsed : Except String QuizData

def MISSING_KEY_ERROR : String :=
  "System Error: API_KEY is missing. Please check your .env file or environment variables."

def CONFIG_ERROR : String :=
  "Configuration Error: API Key is invalid or missing. Please check your environment variables."

/-- Whether `pat` occurs as a contiguous run inside `l`. -/
def containsSub (pat : List Char) : List Char → Bool
  | [] => pat.isEmpty
  | c :: rest => pat.isPrefixOf (c :: rest) || containsSub pat rest

/-- JavaScript `msg.includes(pat)`: substring occurrence. -/
def msgIncludes (msg pat : String) : Bool :=
  containsSub pat.data msg.data

/-- The `catch` branch of `generateQuizFromText` (src/index.tsx lines
196–208): a thrown `Error` whose message includes `"API key"` or
`"API Key"` becomes the configuration error, any other message is passed
through. -/
def catchBranch (msg : String) : GenerateQuizResponse :=
  if msgIncludes msg "API key" || msgIncludes msg "API Key" then
    { success := false, data := none, error := some CONFIG_ERROR }
  else
    { success := false, data := none, error := some msg }

/-- `generateQuizFromText` (src/index.tsx lines 131–209), with the
external call and `JSON.parse` outcomes supplied by `env`: a missing API
key short-circuits to `MISSING_KEY_ERROR`; a throwing call, an empty
`response.text` (which throws `"No content generated"`), and a parse
failure all land in the `catch` branch; a parsed `QuizData` is returned
successfully with sequentially reassigned ids. -/
def generateQuizFromText (env : GenEnv) : GenerateQuizResponse :=
  match env.apiKey with
  | none => { success := false, data := none, error := some MISSING_KEY_ERROR }
  | some _ =>
    match env.callResult with
    | .error msg => catchBranch msg
    | .ok outputText =>
      match outputText with
      | none => catchBranch "No content generated"
      | some text =>
        if text == "" then catchBranch "No content generated"
        else
          match env.parsed with
          | .error msg => catchBranch msg
          | .ok quizData =>
            { success := true
              data := some { questions := processedQuestions quizData.questions }
              error := none }

/-- `UserAnswers` (src/index.tsx lines 54–56): a JavaScript object mapping
question ids to selected options, modelled as an insertion-ordered
association list; states reachable in the component have pairwise
distinct keys, as JavaScript object keys are unique. -/
abbrev UserAnswers := List (Int × String)

/-- `userAnswers[qId]`: the value stored under `qId`, or `undefined`. -/
def lookupAnswer (answers : UserAnswers) (qId : Int) : Option String :=
  (answers.find? (fun p => p.1 == qId)).map (·.2)

/-- `{ ...prev, [qId]: option }`: overwrites the entry in place when the
key exists, otherwise appends it. -/
def setAnswer (answers : UserAnswers) (qId : Int) (opt : String) : UserAnswers :=
  if answers.any (fun p => p.1 == qId) then
    answers.map (fun p => if p.1 == qId then (qId, opt) else p)
  else
    answers ++ [(qId, opt)]

/-- State of the `QuizSection` component (src/index.tsx lines 453–456):
`userAnswers`, `showResults` (the `submitted` flag) and `score`. -/
structure QuizState where
  questions : List Question
  userAnswers : UserAnswers
  showResults : Bool
  score : Nat
deriving DecidableEq

/-- `Object.keys(userAnswers).length` (src/index.tsx line 458). -/
def answeredCount (s : QuizState) : Nat := s.userAnswers.length

/-- `questions.length` (src/index.tsx line 459). -/
def totalCount (s : QuizState) : Nat := s.questions.length

/-- `isComplete = answeredCount === totalCount` (src/index.tsx line 460). -/
def isComplete (s : QuizState) : Bool := answeredCount s == totalCount s

/-- `handleAnswerSelect` (src/index.tsx lines 474–477): ignored after
submission, otherwise records the option under the question id. -/
def handleAnswerSelect (s : QuizState) (qId : Int) (opt : String) : QuizState :=
  if s.showResults then s
  else { s with userAnswers := setAnswer s.userAnswers qId opt }

/-- The scoring loop (src/index.tsx lines 464–470): a counter incremented
over `questions` whenever `userAnswers[q.id] === q.correctAnswer`. -/
def computeScore (questions : List Question) (answers : UserAnswers) : Nat :=
  questions.foldl
    (fun correct q =>
      if lookupAnswer answers q.id == some q.correctAnswer then correct + 1 else correct)
    0

/-- Pressing "Submit Exam" (src/index.tsx lines 637–643): the button is
`disabled={!isComplete}`, so the click is only possible when `isComplete`;
it sets `showResults` to `true`, upon which the effect (lines 462–472)
computes the score.  An attempt while incomplete leaves the state
unchanged. -/
def submitExam (s : QuizState) : QuizState :=
  if isComplete s then
    { s with showResults := true, score := computeScore s.questions s.userAnswers }
  else s

/-! ## Theorems: authorization session manager -/

/-- C1 counterexample: the stored record `{status: 'granted', timestamp: 0}`
parses, and at `now = 1` it satisfies `now - timestamp < EXPIRY_TIME_MS`,
yet `checkAuth` returns `authorized = false` (and purges the record)
because the truthiness test `authData.timestamp` rejects the timestamp
`0`.  So the claim as stated fails at this input. -/
theorem checkAuth_zero_timestamp_rejected :
    ((1 : Int) - 0 < EXPIRY_TIME_MS)
      ∧ checkAuth (some (.wellFormed (authRecord 0))) 1 = ⟨false, none, none⟩ :=
  ⟨by decide, rfl⟩

/-- C1 (amended): for every stored record that parses to a value with
`status = 'granted'` and a *truthy* numeric `timestamp` (`t ≠ 0`), if
`now - t < EXPIRY_TIME_MS` then `checkAuth` returns `authorized = true`
with `expiresAt = t + EXPIRY_TIME_MS`, and the record stays stored. -/
theorem checkAuth_valid_record (v : JVal) (t now : Int)
    (hs : getField v "status" = some (.jstr "granted"))
    (ht : getField v "timestamp" = some (.jnum t))
    (h0 : t ≠ 0)
    (hexp : now - t < EXPIRY_TIME_MS) :
    checkAuth (some (.wellFormed v)) now
      = ⟨true, some (.jnum (t + EXPIRY_TIME_MS)), some (.wellFormed v)⟩ := by
  cases v with
  | jobj fields =>
      simp [checkAuth, hs, ht, strictEqStr, optTruthy, truthy, jsSub, toNumber,
        jsLt, jsAddNum, h0, hexp]
  | jnull => simp [getField] at hs
  | jbool b => simp [getField] at hs
  | jnum n => simp [getField] at hs
  | jstr s => simp [getField] at hs
  | jarr elems => simp [getField] at hs

/-- Witness for `checkAuth_valid_record` at the record
`{status: 'granted', timestamp: 100}` and `now = 150`. -/
theorem checkAuth_valid_record_witness :
    checkAuth (some (.wellFormed (authRecord 100))) 150
      = ⟨true, some (.jnum (100 + EXPIRY_TIME_MS)), some (.wellFormed (authRecord 100))⟩ :=
  checkAuth_valid_record (authRecord 100) 100 150 rfl rfl (by decide) (by decide)

/-- C2 counterexample: the empty string stored under the auth key is not
valid JSON (so it is a stored record that fails to parse), `checkAuth`
returns `authorized = false` — but the record is *not* removed, because
the falsiness test `if (storedAuth)` skips the whole cleanup block. -/
theorem checkAuth_emptyStr_not_purged :
    (checkAuth (some .emptyStr) 5).isAuthorized = false
      ∧ (checkAuth (some .emptyStr) 5).stored = some .emptyStr
      ∧ some StoredVal.emptyStr ≠ (none : Option StoredVal) :=
  ⟨rfl, rfl, by simp⟩

/-- C2 (amended): for every *non-empty* stored string that fails to parse,
parses with `status !== 'granted'`, or parses with `status === 'granted'`
and a numeric timestamp `t` with `now ≥ t + EXPIRY_TIME_MS` (expired),
`checkAuth` returns `authorized = false` and removes the record.  (The
empty stored string also yields `authorized = false` but is left in
place.) -/
theorem checkAuth_purges_invalid (now : Int) :
    (checkAuth (some .malformed) now = ⟨false, none, none⟩)
    ∧ (∀ v : JVal, strictEqStr (getField v "status") "granted" = false →
        checkAuth (some (.wellFormed v)) now = ⟨false, none, none⟩)
    ∧ (∀ (v : JVal) (t : Int), getField v "timestamp" = some (.jnum t) →
        t + EXPIRY_TIME_MS ≤ now →
        checkAuth (some (.wellFormed v)) now = ⟨false, none, none⟩) := by
  refine ⟨rfl, ?_, ?_⟩
  · intro v h
    simp [checkAuth, h]
  · intro v t ht h
    have hlt : jsLt (jsSub now (getField v "timestamp")) EXPIRY_TIME_MS = false := by
      rw [ht]
      simp only [jsSub, toNumber, Option.map, Option.map_some, jsLt,
        decide_eq_false_iff_not, not_lt]
      omega
    simp [checkAuth, hlt]

/-- Witness for `checkAuth_purges_invalid`: a record with the legacy plain
`granted` format (unparsable JSON) is purged, and an expired
`{status: 'granted', timestamp: 100}` record at
`now = 100 + EXPIRY_TIME_MS` is purged. -/
theorem checkAuth_purges_invalid_witness :
    checkAuth (some .malformed) 0 = ⟨false, none, none⟩
      ∧ checkAuth (some (.wellFormed (authRecord 100))) (100 + EXPIRY_TIME_MS)
          = ⟨false, none, none⟩ :=
  ⟨(checkAuth_purges_invalid 0).1,
   (checkAuth_purges_invalid (100 + EXPIRY_TIME_MS)).2.2 (authRecord 100) 100 rfl
     (by decide)⟩

/-- C3: `handleUnlock` returns `true` iff the normalized code
(`trim().toLowerCase()`) is in the fixed allow-list; two codes with the
same normalization get the same result; on success the fresh record
`{status: 'granted', timestamp: now}` is written (with the authorized
state and expiry set); on failure it returns `false` and changes
nothing. -/
theorem handleUnlock_spec (code c₁ c₂ : String) (now : Int)
    (stored : Option StoredVal) (auth : Bool) (expiry : Option JVal) :
    ((handleUnlock code now stored auth expiry).returned = true
        ↔ normalizeCode code ∈ VALID_CODES)
    ∧ (normalizeCode c₁ = normalizeCode c₂ →
        (handleUnlock c₁ now stored auth expiry).returned
          = (handleUnlock c₂ now stored auth expiry).returned)
    ∧ (normalizeCode code ∈ VALID_CODES →
        handleUnlock code now stored auth expiry
          = ⟨true, some (.wellFormed (authRecord now)), true,
              some (.jnum (now + EXPIRY_TIME_MS))⟩)
    ∧ (normalizeCode code ∉ VALID_CODES →
        handleUnlock code now stored auth expiry = ⟨false, stored, auth, expiry⟩) := by
  refine ⟨?_, ?_, ?_, ?_⟩
  · by_cases h : normalizeCode code ∈ VALID_CODES <;>
      simp [handleUnlock, h]
  · intro h
    simp [handleUnlock, h]
  · intro h
    simp [handleUnlock, h]
  · intro h
    simp [handleUnlock, h]

/-- Witness for `handleUnlock_spec`: `"  SAD "` normalizes to the
allow-listed `"sad"` and unlocks, writing the fresh record. -/
theorem handleUnlock_spec_witness :
    handleUnlock "  SAD " 7 none false none
      = ⟨true, some (.wellFormed (authRecord 7)), true,
          some (.jnum (7 + EXPIRY_TIME_MS))⟩ :=
  (handleUnlock_spec "  SAD " "a" "a" 7 none false none).2.2.1 (by decide)

/-! ## Theorems: quiz session state machine -/

/-- The counting loop of the scoring effect, as a fold, equals `countP`. -/
theorem foldl_count {α : Type _} (p : α → Bool) (l : List α) (acc : Nat) :
    l.foldl (fun n x => if p x then n + 1 else n) acc = acc + l.countP p := by
  induction l generalizing acc with
  | nil => simp
  | cons x xs ih =>
      by_cases h : p x
      · simp only [List.foldl_cons, List.countP_cons, h, if_true, ih]
        omega
      · simp [List.countP_cons, h, ih]

/-- `computeScore` counts the questions whose stored answer strictly
equals the correct answer. -/
theorem computeScore_eq_countP (questions : List Question) (answers : UserAnswers) :
    computeScore questions answers
      = questions.countP (fun q => lookupAnswer answers q.id == some q.correctAnswer) := by
  have h := foldl_count
    (fun q : Question => lookupAnswer answers q.id == some q.correctAnswer) questions 0
  simpa [computeScore] using h

/-- Concrete two-question session of the claim: ids 1 and 2 with correct
answers "A" and "B". -/
def exampleQuestionA : Question :=
  ⟨1, "Q1", ["A", "B", "C", "D"], "A", "E1", .Medium⟩

def exampleQuestionB : Question :=
  ⟨2, "Q2", ["A", "B", "C", "D"], "B", "E2", .High⟩

/-- The claim's concrete session: answers `{1: "A", 2: "C"}`, not yet
submitted. -/
def exampleTwoQuestionState : QuizState :=
  ⟨[exampleQuestionA, exampleQuestionB], [(1, "A"), (2, "C")], false, 0⟩

/-- C4: after submission, the score equals the count of questions whose
stored answer equals the correct answer under exact string comparison;
in particular the claim's concrete two-question instance scores 1. -/
theorem submit_score_eq_count :
    (∀ s : QuizState, isComplete s = true →
      (submitExam s).score
        = s.questions.countP
            (fun q => lookupAnswer s.userAnswers q.id == some q.correctAnswer))
    ∧ (submitExam exampleTwoQuestionState).score = 1 := by
  constructor
  · intro s h
    simp [submitExam, h, computeScore_eq_countP]
  · rfl

/-- Witness for `submit_score_eq_count` at the concrete two-question
session. -/
theorem submit_score_eq_count_witness :
    (submitExam exampleTwoQuestionState).score
      = exampleTwoQuestionState.questions.countP
          (fun q => lookupAnswer exampleTwoQuestionState.userAnswers q.id
              == some q.correctAnswer) :=
  submit_score_eq_count.1 exampleTwoQuestionState (by decide)

/-- C5: an attempted submit while the session is incomplete is rejected:
the state (questions, answers, `showResults`, score) is unchanged. -/
theorem submit_incomplete_noop (s : QuizState) (h : isComplete s = false) :
    submitExam s = s := by
  simp [submitExam, h]

/-- The claim's concrete 5-question session with only 4 answers. -/
def exampleFiveQuestionState : QuizState :=
  ⟨[⟨1, "Q1", ["A", "B", "C", "D"], "A", "E", .Medium⟩,
    ⟨2, "Q2", ["A", "B", "C", "D"], "B", "E", .Medium⟩,
    ⟨3, "Q3", ["A", "B", "C", "D"], "C", "E", .Medium⟩,
    ⟨4, "Q4", ["A", "B", "C", "D"], "D", "E", .High⟩,
    ⟨5, "Q5", ["A", "B", "C", "D"], "A", "E", .High⟩],
   [(1, "A"), (2, "B"), (3, "C"), (4, "D")], false, 0⟩

/-- Witness for `submit_incomplete_noop`: a 5-question quiz with only 4
answers recorded is left unchanged by submit. -/
theorem submit_incomplete_noop_witness :
    isComplete exampleFiveQuestionState = false
      ∧ submitExam exampleFiveQuestionState = exampleFiveQuestionState :=
  ⟨by decide, submit_incomplete_noop exampleFiveQuestionState (by decide)⟩

/-- An answer lookup succeeds exactly when the id is among the stored
keys. -/
theorem lookupAnswer_isSome_iff (answers : UserAnswers) (qId : Int) :
    (lookupAnswer answers qId).isSome = true ↔ qId ∈ answers.map Prod.fst := by
  simp [lookupAnswer, List.find?_isSome, List.mem_map, beq_iff_eq]

/-- C6: for every session satisfying the component's reachability
invariant — question ids are pairwise distinct (generation assigns
`1..N`), answer keys are pairwise distinct (JavaScript object keys), and
every answer key is the id of some question (answers are only recorded
from a rendered question's buttons) — `isComplete` is `true` iff every
question id has an entry in `answers`. -/
theorem isComplete_iff_all_answered (s : QuizState)
    (hids : (s.questions.map Question.id).Nodup)
    (hkeys : (s.userAnswers.map Prod.fst).Nodup)
    (hsub : ∀ k ∈ s.userAnswers.map Prod.fst, k ∈ s.questions.map Question.id) :
    isComplete s = true
      ↔ ∀ q ∈ s.questions, (lookupAnswer s.userAnswers q.id).isSome = true := by
  have hk : List.Subperm (s.userAnswers.map Prod.fst) (s.questions.map Question.id) :=
    List.subperm_of_subset hkeys hsub
  constructor
  · intro h q hq
    have hc : s.userAnswers.length = s.questions.length := by
      simpa [isComplete, answeredCount, totalCount] using h
    have hperm : List.Perm (s.userAnswers.map Prod.fst) (s.questions.map Question.id) :=
      hk.perm_of_length_le (by simp [hc])
    rw [lookupAnswer_isSome_iff]
    exact hperm.symm.subset (List.mem_map_of_mem Question.id hq)
  · intro h
    have hsub2 : (s.questions.map Question.id) ⊆ (s.userAnswers.map Prod.fst) := by
      intro k hkmem
      obtain ⟨q, hq, rfl⟩ := List.mem_map.mp hkmem
      exact (lookupAnswer_isSome_iff _ _).mp (h q hq)
    have h1 := (List.subperm_of_subset hids hsub2).length_le
    have h2 := hk.length_le
    simp only [List.length_map] at h1 h2
    simp only [isComplete, answeredCount, totalCount, beq_iff_eq]
    omega

/-- Witness for `isComplete_iff_all_answered` at the concrete
two-question session. -/
theorem isComplete_iff_all_answered_witness :
    isComplete exampleTwoQuestionState = true
      ↔ ∀ q ∈ exampleTwoQuestionState.questions,
          (lookupAnswer exampleTwoQuestionState.userAnswers q.id).isSome = true :=
  isComplete_iff_all_answered exampleTwoQuestionState (by decide) (by decide)
    (by decide)

/-! ## Theorems: quiz generation client -/

/-- The ids of the post-processed questions are exactly `1..N` in array
order. -/
theorem processedQuestions_ids (qs : List Question) :
    (processedQuestions qs).map Question.id
      = List.map Int.ofNat (List.range' 1 qs.length) := by
  induction qs using List.list_reverse_induction with
  | base => rfl
  | ind l e ih =>
      rw [processedQuestions, List.mapIdx_append_one, List.map_append,
        List.length_append, List.length_singleton, List.range'_1_concat,
        List.map_append, ← processedQuestions, ih]
      simp [Int.add_comm]

/-- `catchBranch` always reports a failure with no data. -/
theorem catchBranch_failure (msg : String) :
    (catchBranch msg).success = false ∧ (catchBranch msg).data = none := by
  unfold catchBranch
  split <;> exact ⟨rfl, rfl⟩

/-- C7: whenever the external response parses to `quizData` with `N ≥ 1`
questions, `generateQuizFromText` succeeds and the returned questions'
ids are exactly `1..N` in array order, irrespective of the raw ids. -/
theorem generateQuiz_ids_sequential (env : GenEnv) (k text : String)
    (quizData : QuizData) (hk : env.apiKey = some k)
    (hc : env.callResult = .ok (some text)) (htext : text ≠ "")
    (hp : env.parsed = .ok quizData) (hn : 1 ≤ quizData.questions.length) :
    (generateQuizFromText env).success = true
      ∧ (generateQuizFromText env).data = some ⟨processedQuestions quizData.questions⟩
      ∧ (processedQuestions quizData.questions).map Question.id
          = List.map Int.ofNat (List.range' 1 quizData.questions.length) := by
  refine ⟨?_, ?_, processedQuestions_ids _⟩ <;>
    simp [generateQuizFromText, hk, hc, hp, htext]

/-- Raw questions with duplicate external ids (both `7`). -/
def exampleRawQuestions : List Question :=
  [⟨7, "QA", ["a", "b", "c", "d"], "a", "e", .Medium⟩,
   ⟨7, "QB", ["a", "b", "c", "d"], "b", "e", .High⟩]

/-- A call environment whose response parses to `exampleRawQuestions`. -/
def exampleGenEnv : GenEnv :=
  ⟨some "key", .ok (some "json"), .ok ⟨exampleRawQuestions⟩⟩

/-- Witness for `generateQuiz_ids_sequential`: duplicate raw ids `7, 7`
become `1, 2`. -/
theorem generateQuiz_ids_sequential_witness :
    (generateQuizFromText exampleGenEnv).success = true
      ∧ (generateQuizFromText exampleGenEnv).data
          = some ⟨processedQuestions exampleRawQuestions⟩
      ∧ (processedQuestions exampleRawQuestions).map Question.id
          = List.map Int.ofNat (List.range' 1 exampleRawQuestions.length) :=
  generateQuiz_ids_sequential exampleGenEnv "key" "json" ⟨exampleRawQuestions⟩
    rfl rfl (by decide) rfl (by decide)

/-- C8 counterexample: an external response that parses to an *empty*
questions array makes `generateQuizFromText` return a successful empty
quiz (`success = true`), not an error. -/
def emptyQuizEnv : GenEnv := ⟨some "key", .ok (some "json"), .ok ⟨[]⟩⟩

theorem generateQuiz_empty_questions_success :
    (generateQuizFromText emptyQuizEnv).success = true
      ∧ (generateQuizFromText emptyQuizEnv).data = some ⟨[]⟩ :=
  ⟨rfl, rfl⟩

/-- C8 (amended): with an API key configured, an empty raw output
(absent or empty `response.text`) yields the failure
`"No content generated"`, and an unparsable output yields a failure with
the parse error passed through; but a response that parses to an empty
questions array yields a *successful* empty quiz. -/
theorem generateQuiz_empty_or_malformed (env : GenEnv) (k : String)
    (hk : env.apiKey = some k) :
    (env.callResult = .ok none ∨ env.callResult = .ok (some "") →
        generateQuizFromText env = ⟨false, none, some "No content generated"⟩)
    ∧ (∀ text msg, text ≠ "" → env.callResult = .ok (some text) →
        env.parsed = .error msg →
        (generateQuizFromText env).success = false
          ∧ (generateQuizFromText env).data = none)
    ∧ (∀ text quizData, text ≠ "" → env.callResult = .ok (some text) →
        env.parsed = .ok quizData → quizData.questions = [] →
        generateQuizFromText env = ⟨true, some ⟨[]⟩, none⟩) := by
  refine ⟨?_, ?_, ?_⟩
  · rintro (hc | hc) <;> simp [generateQuizFromText, hk, hc] <;> rfl
  · intro text msg htext hc hp
    have h := catchBranch_failure msg
    simp [generateQuizFromText, hk, hc, hp, htext, h.1, h.2]
  · intro text quizData htext hc hp hempty
    simp [generateQuizFromText, hk, hc, hp, htext, hempty, processedQuestions]

/-- Environment with an absent `response.text`. -/
def noTextEnv : GenEnv := ⟨some "key", .ok none, .ok ⟨[]⟩⟩

/-- Witness for `generateQuiz_empty_or_malformed`: an absent raw output
produces the `"No content generated"` failure. -/
theorem generateQuiz_empty_or_malformed_witness :
    generateQuizFromText noTextEnv = ⟨false, none, some "No content generated"⟩ :=
  (generateQuiz_empty_or_malformed noTextEnv "key" rfl).1 (Or.inl rfl)

/-- The data-model invariant of §3: the correct answer is among the
options, and there are exactly 4 pairwise-distinct options. -/
def optionsInvariant (q : Question) : Prop :=
  q.correctAnswer ∈ q.options ∧ q.options.length = 4 ∧ q.options.Nodup

/-- C9 counterexample: the generation client performs no validation — a
parsed response whose only question has 2 options and a correct answer
not among them is returned successfully, violating the invariant. -/
def invalidQuestionEnv : GenEnv :=
  ⟨some "key", .ok (some "json"),
   .ok ⟨[⟨5, "QX", ["Alpha", "Beta"], "Gamma", "E", .Medium⟩]⟩⟩

theorem generateQuiz_no_validation :
    (generateQuizFromText invalidQuestionEnv).success = true
      ∧ (generateQuizFromText invalidQuestionEnv).data
          = some ⟨[⟨1, "QX", ["Alpha", "Beta"], "Gamma", "E", .Medium⟩]⟩
      ∧ ¬ optionsInvariant ⟨1, "QX", ["Alpha", "Beta"], "Gamma", "E", .Medium⟩ := by
  refine ⟨rfl, rfl, ?_⟩
  rintro ⟨h1, -, -⟩
  revert h1
  decide

/-- C9 (amended): the id reassignment preserves `options` and
`correctAnswer`, so whenever every *parsed* question satisfies the
invariant, every question of the successful result does; the client
itself validates nothing. -/
theorem generateQuiz_invariant_preserved (env : GenEnv) (k text : String)
    (quizData : QuizData) (hk : env.apiKey = some k)
    (hc : env.callResult = .ok (some text)) (htext : text ≠ "")
    (hp : env.parsed = .ok quizData)
    (hinv : ∀ q ∈ quizData.questions, optionsInvariant q) :
    (generateQuizFromText env).data = some ⟨processedQuestions quizData.questions⟩
      ∧ ∀ q ∈ processedQuestions quizData.questions, optionsInvariant q := by
  constructor
  · simp [generateQuizFromText, hk, hc, hp, htext]
  · intro q hq
    rw [processedQuestions, List.mapIdx_eq_ofFn] at hq
    rw [List.mem_ofFn] at hq
    obtain ⟨i, rfl⟩ := hq
    have hmem : quizData.questions.get i ∈ quizData.questions :=
      List.get_mem _ _ _
    have hqi := hinv _ hmem
    simpa [optionsInvariant] using hqi

/-- Witness for `generateQuiz_invariant_preserved` on a well-formed
single-question response. -/
def validQuestionEnv : GenEnv :=
  ⟨some "key", .ok (some "json"),
   .ok ⟨[⟨9, "QY", ["w", "x", "y", "z"], "y", "E", .High⟩]⟩⟩

theorem generateQuiz_invariant_preserved_witness :
    (generateQuizFromText validQuestionEnv).data
        = some ⟨processedQuestions [⟨9, "QY", ["w", "x", "y", "z"], "y", "E", .High⟩]⟩
      ∧ ∀ q ∈ processedQuestions [⟨9, "QY", ["w", "x", "y", "z"], "y", "E", .High⟩],
          optionsInvariant q :=
  generateQuiz_invariant_preserved validQuestionEnv "key" "json"
    ⟨[⟨9, "QY", ["w", "x", "y", "z"], "y", "E", .High⟩]⟩ rfl rfl (by decide) rfl
    (by
      intro q hq
      simp only [List.mem_singleton] at hq
      subst hq
      refine ⟨by decide, by decide, by decide⟩)

/-- C10: id reassignment is a frame operation — the output has the same
length as the input, and at every position all fields other than `id`
are unchanged. -/
theorem processedQuestions_frame (qs : List Question) :
    (processedQuestions qs).length = qs.length
    ∧ ∀ (i : Nat) (h : i < qs.length) (h2 : i < (processedQuestions qs).length),
        ((processedQuestions qs).get ⟨i, h2⟩).question = (qs.get ⟨i, h⟩).question
        ∧ ((processedQuestions qs).get ⟨i, h2⟩).options = (qs.get ⟨i, h⟩).options
        ∧ ((processedQuestions qs).get ⟨i, h2⟩).correctAnswer
            = (qs.get ⟨i, h⟩).correctAnswer
        ∧ ((processedQuestions qs).get ⟨i, h2⟩).explanation
            = (qs.get ⟨i, h⟩).explanation
        ∧ ((processedQuestions qs).get ⟨i, h2⟩).difficulty
            = (qs.get ⟨i, h⟩).difficulty := by
  refine ⟨by simp [processedQuestions], ?_⟩
  intro i h h2
  have hget : (processedQuestions qs).get ⟨i, h2⟩
      = { qs.get ⟨i, h⟩ with id := (i : Int) + 1 } := by
    simp only [processedQuestions] at h2 ⊢
    exact List.get_mapIdx qs _ i h h2
  rw [hget]
  exact ⟨rfl, rfl, rfl, rfl, rfl⟩

/-- Witness for `processedQuestions_frame` at the two-question raw list. -/
theorem processedQuestions_frame_witness :
    ((processedQuestions exampleRawQuestions).get ⟨0, by decide⟩).question
        = (exampleRawQuestions.get ⟨0, by decide⟩).question
      ∧ ((processedQuestions exampleRawQuestions).get ⟨0, by decide⟩).options
        = (exampleRawQuestions.get ⟨0, by decide⟩).options :=
  ⟨((processedQuestions_frame exampleRawQuestions).2 0 (by decide) (by decide)).1,
   ((processedQuestions_frame exampleRawQuestions).2 0 (by decide) (by decide)).2.1⟩

end Medica
